import Mathlib

/-!
Verification of the V8 DOM wrapper generator (src/v8-bindings/generate_wrappers.py)
and of the wrapper identity / lifecycle subsystem implemented by the code it emits.

The Python generator is embedded as pure Lean string functions.  The behaviour of
the C++ code each generated file contains (`Wrap`, `Unwrap`, `InstallTemplate`,
`GetTemplate`) is embedded as a state machine over an explicit engine state.
The `WrapperCache`, `TemplateCache` and the native `dom_*_addref` / `dom_*_release`
functions are declared by the generated code but their implementations are not part
of the repository; those parts are modelled from the specification and are marked
as such in their doc comments.
-/

namespace V8Dom

/-- Template indices for each wrapper type: the `TEMPLATE_INDICES` dict of
generate_wrappers.py, embedded as an association list in source order. -/
def TEMPLATE_INDICES : List (String × Nat) :=
  [ ("EventTarget", 0),
    ("Node", 1),
    ("Element", 2),
    ("Document", 3),
    ("DocumentFragment", 4),
    ("CharacterData", 5),
    ("Text", 6),
    ("Comment", 7),
    ("CDATASection", 8),
    ("ProcessingInstruction", 9),
    ("DocumentType", 10),
    ("Attr", 11),
    ("DOMImplementation", 12),
    ("NodeList", 13),
    ("HTMLCollection", 14),
    ("NamedNodeMap", 15),
    ("DOMTokenList", 16),
    ("Event", 17),
    ("CustomEvent", 18),
    ("AbstractRange", 19),
    ("Range", 20),
    ("StaticRange", 21),
    ("NodeIterator", 22),
    ("TreeWalker", 23),
    ("MutationObserver", 24),
    ("MutationRecord", 25),
    ("ShadowRoot", 26),
    ("AbortController", 27),
    ("AbortSignal", 28) ]

/-- The slot lookup performed by the generator:
`TEMPLATE_INDICES.get(interface_name, 99)` (generate_wrappers.py line 77).
An unregistered name silently yields the fallback value 99. -/
def templateIndexOf (interface_name : String) : Nat :=
  (TEMPLATE_INDICES.lookup interface_name).getD 99

/-- The `INHERITANCE` dict of generate_wrappers.py (declared in the source;
generation itself takes the parent from the per-type tuples in `main`). -/
def INHERITANCE : List (String × String) :=
  [ ("Node", "EventTarget"),
    ("Element", "Node"),
    ("Document", "Node"),
    ("DocumentFragment", "Node"),
    ("CharacterData", "Node"),
    ("Text", "CharacterData"),
    ("Comment", "CharacterData"),
    ("CDATASection", "Text"),
    ("ProcessingInstruction", "CharacterData"),
    ("DocumentType", "Node"),
    ("Attr", "Node"),
    ("ShadowRoot", "DocumentFragment") ]

/-- The 29 interfaces the generator emits wrappers for (the constructors follow
the `all_types` list of `main`). -/
inductive Iface where
  | EventTarget
  | Node
  | Element
  | Document
  | DocumentFragment
  | CharacterData
  | Text
  | Comment
  | CDATASection
  | ProcessingInstruction
  | DocumentType
  | Attr
  | DOMImplementation
  | NodeList
  | HTMLCollection
  | NamedNodeMap
  | DOMTokenList
  | Event
  | CustomEvent
  | AbstractRange
  | Range
  | StaticRange
  | NodeIterator
  | TreeWalker
  | MutationObserver
  | MutationRecord
  | ShadowRoot
  | AbortController
  | AbortSignal
deriving DecidableEq

/-- The interface's name, exactly as it appears in `main`'s type tuples. -/
def ifaceName : Iface → String
  | .EventTarget => "EventTarget"
  | .Node => "Node"
  | .Element => "Element"
  | .Document => "Document"
  | .DocumentFragment => "DocumentFragment"
  | .CharacterData => "CharacterData"
  | .Text => "Text"
  | .Comment => "Comment"
  | .CDATASection => "CDATASection"
  | .ProcessingInstruction => "ProcessingInstruction"
  | .DocumentType => "DocumentType"
  | .Attr => "Attr"
  | .DOMImplementation => "DOMImplementation"
  | .NodeList => "NodeList"
  | .HTMLCollection => "HTMLCollection"
  | .NamedNodeMap => "NamedNodeMap"
  | .DOMTokenList => "DOMTokenList"
  | .Event => "Event"
  | .CustomEvent => "CustomEvent"
  | .AbstractRange => "AbstractRange"
  | .Range => "Range"
  | .StaticRange => "StaticRange"
  | .NodeIterator => "NodeIterator"
  | .TreeWalker => "TreeWalker"
  | .MutationObserver => "MutationObserver"
  | .MutationRecord => "MutationRecord"
  | .ShadowRoot => "ShadowRoot"
  | .AbortController => "AbortController"
  | .AbortSignal => "AbortSignal"

/-- The parent interface of each wrapper, as assigned by the tuples in `main`
(`node_types`, `event_types`, `range_types`, `shadow_types`, ...). -/
def parentOf : Iface → Option Iface
  | .Node => some .EventTarget
  | .Element => some .Node
  | .Document => some .Node
  | .DocumentFragment => some .Node
  | .CharacterData => some .Node
  | .Text => some .CharacterData
  | .Comment => some .CharacterData
  | .CDATASection => some .Text
  | .ProcessingInstruction => some .CharacterData
  | .DocumentType => some .Node
  | .Attr => some .Node
  | .CustomEvent => some .Event
  | .Range => some .AbstractRange
  | .StaticRange => some .AbstractRange
  | .ShadowRoot => some .DocumentFragment
  | _ => none

/-- The output directory assigned to each interface by `main`. -/
def dirOf : Iface → String
  | .EventTarget | .Node | .Element | .Document | .DocumentFragment
  | .CharacterData | .Text | .Comment | .CDATASection | .ProcessingInstruction
  | .DocumentType | .Attr | .DOMImplementation => "nodes"
  | .NodeList | .HTMLCollection | .NamedNodeMap | .DOMTokenList => "collections"
  | .Event | .CustomEvent => "events"
  | .AbstractRange | .Range | .StaticRange => "ranges"
  | .NodeIterator | .TreeWalker => "traversal"
  | .MutationObserver | .MutationRecord => "observers"
  | .ShadowRoot => "shadow"
  | .AbortController | .AbortSignal => "abort"

/-- All 29 interfaces, in the order of `all_types` in `main`. -/
def allIfaces : List Iface :=
  [ .EventTarget, .Node, .Element, .Document, .DocumentFragment, .CharacterData,
    .Text, .Comment, .CDATASection, .ProcessingInstruction, .DocumentType, .Attr,
    .DOMImplementation,
    .NodeList, .HTMLCollection, .NamedNodeMap, .DOMTokenList,
    .Event, .CustomEvent,
    .AbstractRange, .Range, .StaticRange,
    .NodeIterator, .TreeWalker,
    .MutationObserver, .MutationRecord,
    .ShadowRoot,
    .AbortController, .AbortSignal ]

/-- The `node_types` list of `main`: `(interface_name, parent_class, directory)` tuples;
Python's `None` parent becomes `none`. -/
def node_types : List (String × Option String × String) :=
  [ ("EventTarget", none, "nodes"),
    ("Node", some "EventTarget", "nodes"),
    ("Element", some "Node", "nodes"),
    ("Document", some "Node", "nodes"),
    ("DocumentFragment", some "Node", "nodes"),
    ("CharacterData", some "Node", "nodes"),
    ("Text", some "CharacterData", "nodes"),
    ("Comment", some "CharacterData", "nodes"),
    ("CDATASection", some "Text", "nodes"),
    ("ProcessingInstruction", some "CharacterData", "nodes"),
    ("DocumentType", some "Node", "nodes"),
    ("Attr", some "Node", "nodes"),
    ("DOMImplementation", none, "nodes") ]

/-- The `collection_types` list of `main`. -/
def collection_types : List (String × Option String × String) :=
  [ ("NodeList", none, "collections"),
    ("HTMLCollection", none, "collections"),
    ("NamedNodeMap", none, "collections"),
    ("DOMTokenList", none, "collections") ]

/-- The `event_types` list of `main`. -/
def event_types : List (String × Option String × String) :=
  [ ("Event", none, "events"),
    ("CustomEvent", some "Event", "events") ]

/-- The `range_types` list of `main`. -/
def range_types : List (String × Option String × String) :=
  [ ("AbstractRange", none, "ranges"),
    ("Range", some "AbstractRange", "ranges"),
    ("StaticRange", some "AbstractRange", "ranges") ]

/-- The `traversal_types` list of `main`. -/
def traversal_types : List (String × Option String × String) :=
  [ ("NodeIterator", none, "traversal"),
    ("TreeWalker", none, "traversal") ]

/-- The `observer_types` list of `main`. -/
def observer_types : List (String × Option String × String) :=
  [ ("MutationObserver", none, "observers"),
    ("MutationRecord", none, "observers") ]

/-- The `shadow_types` list of `main`. -/
def shadow_types : List (String × Option String × String) :=
  [ ("ShadowRoot", some "DocumentFragment", "shadow") ]

/-- The `abort_types` list of `main`. -/
def abort_types : List (String × Option String × String) :=
  [ ("AbortController", none, "abort"),
    ("AbortSignal", none, "abort") ]

/-- The `all_types` list of `main`: the concatenation of the per-category tuple lists. -/
def all_types : List (String × Option String × String) :=
  node_types ++ collection_types ++ event_types ++
    range_types ++ traversal_types ++ observer_types ++
    shadow_types ++ abort_types

/-- The registry slot of an interface: the generated `kTemplateIndex` constant,
computed exactly as `generate_header` computes it. -/
def slotOf (i : Iface) : Nat := templateIndexOf (ifaceName i)

/-- Sanity check: `Iface`, `ifaceName`, `parentOf` and `dirOf` exactly mirror
the literal `all_types` tuples of `main`. -/
theorem all_types_eq_map :
    all_types = allIfaces.map (fun i => (ifaceName i, (parentOf i).map ifaceName, dirOf i)) := by
  decide

/-!
## Type templates and the template cache

A `v8::FunctionTemplate` is modelled by its observable attributes: an allocation
identity (`id`, fresh per `v8::FunctionTemplate::New` call, so two templates are
the same engine object exactly when their `id`s agree), the class name set by
`SetClassName`, the instance internal-field count set by `SetInternalFieldCount`,
and the identity of the template passed to `Inherit`, if any.
-/

/-- An engine-side type template (a `v8::FunctionTemplate`), by its observable
attributes; `id` is the allocation identity. -/
structure Template where
  id : Nat
  className : String
  internalFieldCount : Nat
  parentId : Option Nat
deriving DecidableEq, Inhabited

/-- Modelled from the spec: the `TemplateCache` of `../core/template_cache.h` is
not part of the repository.  Per §4.2 it is per-engine-instance storage mapping a
numeric interface slot to the constructed template.  `nextId` supplies fresh
allocation identities for `v8::FunctionTemplate::New`. -/
structure TState where
  slots : List (Nat × Template)
  nextId : Nat
deriving DecidableEq, Inhabited

/-- Modelled from the spec: `TemplateCache::Has(index)`. -/
def templateCacheHas (s : TState) (index : Nat) : Bool :=
  (s.slots.lookup index).isSome

/-- Modelled from the spec: `TemplateCache::Get(index)`; defined (`some`) exactly
on the slots that have been `Set`. -/
def templateCacheGet (s : TState) (index : Nat) : Option Template :=
  s.slots.lookup index

/-- Modelled from the spec: `TemplateCache::Set(index, tmpl)` stores `tmpl` at
`index` (the new entry shadows any older one under lookup). -/
def templateCacheSet (s : TState) (index : Nat) (tmpl : Template) : TState :=
  { s with slots := (index, tmpl) :: s.slots }

/-- The body of the generated `{Interface}Wrapper::InstallTemplate(isolate)`,
parameterised by the recursive `GetTemplate` used on the `Inherit` line:
  * `v8::FunctionTemplate::New(isolate)` — a fresh template;
  * `tmpl->SetClassName(...)` with the interface name;
  * `tmpl->InstanceTemplate()->SetInternalFieldCount(1)`;
  * when a parent class exists, `tmpl->Inherit(ParentWrapper::GetTemplate(isolate))`;
  * `cache->Set(kTemplateIndex, tmpl)`. -/
def InstallTemplateStep (get : Iface → TState → Template × TState)
    (i : Iface) (s : TState) : TState :=
  let tid := s.nextId
  let s1 : TState := { s with nextId := tid + 1 }
  match parentOf i with
  | some pa =>
      let res := get pa s1
      let tmpl : Template :=
        { id := tid, className := ifaceName i, internalFieldCount := 1,
          parentId := some res.1.id }
      templateCacheSet res.2 (slotOf i) tmpl
  | none =>
      let tmpl : Template :=
        { id := tid, className := ifaceName i, internalFieldCount := 1,
          parentId := none }
      templateCacheSet s1 (slotOf i) tmpl

/-- The generated `GetTemplate`, with an explicit recursion bound:
`if (!cache->Has(kTemplateIndex)) InstallTemplate(isolate); return cache->Get(...)`.
Recursion descends only through the static parent chains (depth at most 4), so
the fuel-exhausted branch is unreachable for the fuel used by `GetTemplate`. -/
def getTemplateFuel : Nat → Iface → TState → Template × TState
  | 0, _, s => (default, s)
  | fuel + 1, i, s =>
      match templateCacheGet s (slotOf i) with
      | some t => (t, s)
      | none =>
          let s' := InstallTemplateStep (getTemplateFuel fuel) i s
          ((templateCacheGet s' (slotOf i)).getD default, s')

/-- The generated `{Interface}Wrapper::GetTemplate(isolate)`; 32 exceeds every
inheritance-chain length, so the recursion bound never bites. -/
def GetTemplate (i : Iface) (s : TState) : Template × TState :=
  getTemplateFuel 32 i s

/-- The generated `{Interface}Wrapper::InstallTemplate(isolate)` (its `Inherit`
line invokes the parent wrapper's `GetTemplate`). -/
def InstallTemplate (i : Iface) (s : TState) : TState :=
  InstallTemplateStep (getTemplateFuel 31) i s

/-- A fresh engine instance: no templates constructed yet. -/
def emptyTState : TState := { slots := [], nextId := 0 }

/-!
## Engine objects, the wrapper cache, native reference counts, Wrap / Unwrap

A native pointer is a `Nat`; `0` is the native absence value (C `nullptr`).
A `v8::Local<v8::Object>` handle is an `Option Nat`: `none` is the empty handle
(`IsEmpty()`), `some oid` refers to the heap object with identity `oid`.
An engine object is observable through its internal-field list.
-/

/-- A native pointer; `0` is `nullptr`. -/
abbrev Ptr := Nat

/-- The value held by one internal field of an engine object: either a
`v8::External` wrapping a native pointer, or any non-External value
(`undefined` stands for all of those — `Unwrap` only tests `IsExternal()`). -/
inductive FieldVal where
  | undef
  | extPtr (p : Ptr)
deriving DecidableEq

/-- Modelled from the spec: a `WrapperCache` entry of `../core/wrapper_cache.h`
(not part of the repository).  Per §4.3 it pairs the engine object with the
release callback registered by `Wrap`; the generated callback for interface `I`
calls `dom_i_release(static_cast&lt;DOMI*&gt;(ptr))`, so the callback is determined by
the interface it was generated for, recorded here as `releaseIface`. -/
structure WrapperEntry where
  objId : Nat
  releaseIface : Iface
deriving DecidableEq

/-- The full observable state of one engine instance plus the native side:
the template cache, the engine heap (object identity to internal fields),
the wrapper cache, and the native reference counts.
`heap`, `wcache` and `refcount` are association lists (first match wins);
`nextObj` supplies fresh object identities for `NewInstance`. -/
structure EngineState where
  tmpl : TState
  heap : List (Nat × List FieldVal)
  nextObj : Nat
  wcache : List (Ptr × WrapperEntry)
  refcount : List (Ptr × Int)
deriving DecidableEq

/-- A fresh engine instance next to a native side with no recorded counts. -/
def emptyEngineState : EngineState :=
  { tmpl := emptyTState, heap := [], nextObj := 0, wcache := [], refcount := [] }

/-- The native reference count of `p` (baseline 0 for pointers never touched). -/
def rcGet (rc : List (Ptr × Int)) (p : Ptr) : Int :=
  (rc.lookup p).getD 0

/-- Modelled from the spec: the per-interface native increment function
`dom_{interface}_addref` (§6: `addRef(pointer)` — the interface argument selects
which typed function of the family is called). -/
def domAddref (_i : Iface) (p : Ptr) (rc : List (Ptr × Int)) : List (Ptr × Int) :=
  (p, rcGet rc p + 1) :: rc

/-- Modelled from the spec: the per-interface native decrement function
`dom_{interface}_release` (§6: `release(pointer)`). -/
def domRelease (_i : Iface) (p : Ptr) (rc : List (Ptr × Int)) : List (Ptr × Int) :=
  (p, rcGet rc p - 1) :: rc

/-- Modelled from the spec: `WrapperCache::Has` / `WrapperCache::Get` (§4.3);
`Get`'s precondition is that `Has` holds, so both are one lookup here. -/
def wrapperCacheGet (c : List (Ptr × WrapperEntry)) (p : Ptr) : Option WrapperEntry :=
  c.lookup p

/-- Modelled from the spec: `WrapperCache::Set(isolate, obj, wrapper, callback)`
registers a new entry (§4.3: precondition is that no entry for `p` exists). -/
def wrapperCacheSet (c : List (Ptr × WrapperEntry)) (p : Ptr) (e : WrapperEntry) :
    List (Ptr × WrapperEntry) :=
  (p, e) :: c

/-- Modelled from the spec: the engine invoking a cache entry's release callback
at reclamation (§4.3 `onReclaim`); the generated callback body is
`dom_{interface}_release(static_cast&lt;DOM{Interface}*&gt;(ptr))`. -/
def runReleaseCallback (e : WrapperEntry) (p : Ptr) (s : EngineState) : EngineState :=
  { s with refcount := domRelease e.releaseIface p s.refcount }

/-- The generated `{Interface}Wrapper::Wrap(isolate, context, obj)`:
  * `if (!obj) return v8::Local&lt;v8::Object&gt;();`
  * cache hit: `if (cache->Has(obj)) return cache->Get(isolate, obj);`
  * `GetTemplate(isolate)` (lazily building the template chain),
    `tmpl->GetFunction(context)`, `constructor->NewInstance(context)` — a fresh
    object whose internal-field count comes from the instance template;
  * `wrapper->SetInternalField(0, v8::External::New(isolate, obj));`
  * `dom_{interface}_addref(obj);`
  * `cache->Set(isolate, obj, wrapper, release-callback);`
  * returns the new wrapper. -/
def Wrap (i : Iface) (p : Ptr) (s : EngineState) : Option Nat × EngineState :=
  if p = 0 then
    (none, s)
  else
    match wrapperCacheGet s.wcache p with
    | some e => (some e.objId, s)
    | none =>
        let tres := GetTemplate i s.tmpl
        let s1 : EngineState := { s with tmpl := tres.2 }
        let oid := s1.nextObj
        let s2 : EngineState :=
          { s1 with
            heap := (oid, List.replicate tres.1.internalFieldCount FieldVal.undef) :: s1.heap,
            nextObj := oid + 1 }
        let s3 : EngineState :=
          { s2 with
            heap := s2.heap.map (fun o =>
              if o.1 = oid then (o.1, o.2.set 0 (FieldVal.extPtr p)) else o) }
        let s4 : EngineState := { s3 with refcount := domAddref i p s3.refcount }
        let s5 : EngineState :=
          { s4 with wcache := wrapperCacheSet s4.wcache p ⟨oid, i⟩ }
        (some oid, s5)

/-- The generated `{Interface}Wrapper::Unwrap(obj)`:
  * `if (obj.IsEmpty() || obj->InternalFieldCount() < 1) return nullptr;`
  * `ptr = obj->GetInternalField(0); if (!ptr->IsExternal()) return nullptr;`
  * `return static_cast&lt;DOM{Interface}*&gt;(...Cast(ptr)->Value());`
A non-empty handle always refers to a live engine object; an identity absent
from the heap is treated like the empty handle. -/
def Unwrap (h : Option Nat) (s : EngineState) : Ptr :=
  match h with
  | none => 0
  | some oid =>
      match s.heap.lookup oid with
      | none => 0
      | some fields =>
          if fields.length < 1 then 0
          else
            match fields[0]? with
            | some (FieldVal.extPtr p) => p
            | _ => 0

/-!
## The generator itself

`generate_header` and `generate_implementation` are embedded as pure string
functions; Python's `None` parent argument becomes `none`.  The literal braces
of the emitted C++ are written with character escapes.
-/

/-- The function `generate_header(interface_name, parent_class)`: the wrapper header file. -/
def generate_header (interface_name : String) (parent_class : Option String) : String :=
  let guard := "V8_DOM_" ++ interface_name.toUpper ++ "_WRAPPER_H"
  let dom_type := "DOM" ++ interface_name
  let wrapper_class := interface_name ++ "Wrapper"
  let parent_wrapper :=
    match parent_class with
    | some pc => pc ++ "Wrapper"
    | none => "BaseWrapper"
  let template_index := templateIndexOf interface_name
  let parent_include :=
    match parent_class with
    | some pc => "#include \"" ++ pc.toLower ++ "_wrapper.h\""
    | none => "#include \"../core/base_wrapper.h\""
  let class_suffix :=
    match parent_class with
    | some _ => " : public " ++ parent_wrapper
    | none => ""
  "/**\n" ++
  " * " ++ interface_name ++ " Wrapper - V8 bindings for " ++ interface_name ++ "\n" ++
  " * \n" ++
  " * Auto-generated wrapper for DOM" ++ interface_name ++ ".\n" ++
  " * Provides JavaScript interface for " ++ interface_name ++ " operations.\n" ++
  " */\n" ++
  "\n" ++
  "#ifndef " ++ guard ++ "\n" ++
  "#define " ++ guard ++ "\n" ++
  "\n" ++
  "#include <v8.h>\n" ++
  parent_include ++ "\n" ++
  "#include \"../../js-bindings/dom.h\"\n" ++
  "\n" ++
  "namespace v8_dom \x7b\n" ++
  "\n" ++
  "class " ++ wrapper_class ++ class_suffix ++ " \x7b\n" ++
  "public:\n" ++
  "    /**\n" ++
  "     * Wrap a C " ++ dom_type ++ " pointer in a V8 object.\n" ++
  "     * Uses wrapper cache for identity preservation.\n" ++
  "     */\n" ++
  "    static v8::Local<v8::Object> Wrap(v8::Isolate* isolate,\n" ++
  "                                      v8::Local<v8::Context> context,\n" ++
  "                                      " ++ dom_type ++ "* obj);\n" ++
  "    \n" ++
  "    /**\n" ++
  "     * Unwrap a V8 object to get the C " ++ dom_type ++ " pointer.\n" ++
  "     */\n" ++
  "    static " ++ dom_type ++ "* Unwrap(v8::Local<v8::Object> obj);\n" ++
  "    \n" ++
  "    /**\n" ++
  "     * Install the " ++ interface_name ++ " template (called once per isolate).\n" ++
  "     */\n" ++
  "    static void InstallTemplate(v8::Isolate* isolate);\n" ++
  "    \n" ++
  "    /**\n" ++
  "     * Get the cached " ++ interface_name ++ " template.\n" ++
  "     */\n" ++
  "    static v8::Local<v8::FunctionTemplate> GetTemplate(v8::Isolate* isolate);\n" ++
  "    \n" ++
  "    /**\n" ++
  "     * Template cache index.\n" ++
  "     */\n" ++
  "    static constexpr int kTemplateIndex = " ++ toString template_index ++ ";\n" ++
  "    \n" ++
  "private:\n" ++
  "    // Property getters/setters and methods will be added here\n" ++
  "    // TODO: Parse dom.h to auto-generate these declarations\n" ++
  "\x7d;\n" ++
  "\n" ++
  "\x7d // namespace v8_dom\n" ++
  "\n" ++
  "#endif // " ++ guard ++ "\n"

/-- The function `generate_implementation(interface_name, parent_class)`: the wrapper
implementation file. -/
def generate_implementation (interface_name : String) (parent_class : Option String) : String :=
  let dom_type := "DOM" ++ interface_name
  let wrapper_class := interface_name ++ "Wrapper"
  let lower_name := interface_name.toLower
  let parent_wrapper :=
    match parent_class with
    | some pc => pc ++ "Wrapper"
    | none => ""
  let inherit_line :=
    match parent_class with
    | some pc =>
        "    // Inherit from " ++ pc ++ "\n    tmpl->Inherit(" ++ parent_wrapper ++
          "::GetTemplate(isolate));\n"
    | none => ""
  "#include \"" ++ lower_name ++ "_wrapper.h\"\n" ++
  "#include \"../core/wrapper_cache.h\"\n" ++
  "#include \"../core/template_cache.h\"\n" ++
  "#include \"../core/utilities.h\"\n" ++
  "\n" ++
  "namespace v8_dom \x7b\n" ++
  "\n" ++
  "v8::Local<v8::Object> " ++ wrapper_class ++ "::Wrap(v8::Isolate* isolate,\n" ++
  "                                              v8::Local<v8::Context> context,\n" ++
  "                                              " ++ dom_type ++ "* obj) \x7b\n" ++
  "    if (!obj) \x7b\n" ++
  "        return v8::Local<v8::Object>();\n" ++
  "    \x7d\n" ++
  "    \n" ++
  "    // Check wrapper cache first\n" ++
  "    WrapperCache* cache = WrapperCache::ForIsolate(isolate);\n" ++
  "    if (cache->Has(obj)) \x7b\n" ++
  "        return cache->Get(isolate, obj);\n" ++
  "    \x7d\n" ++
  "    \n" ++
  "    // Create new wrapper\n" ++
  "    v8::EscapableHandleScope handle_scope(isolate);\n" ++
  "    v8::Local<v8::FunctionTemplate> tmpl = GetTemplate(isolate);\n" ++
  "    v8::Local<v8::Function> constructor = tmpl->GetFunction(context).ToLocalChecked();\n" ++
  "    v8::Local<v8::Object> wrapper = constructor->NewInstance(context).ToLocalChecked();\n" ++
  "    \n" ++
  "    // Store C pointer in internal field\n" ++
  "    wrapper->SetInternalField(0, v8::External::New(isolate, obj));\n" ++
  "    \n" ++
  "    // Increment C-side reference count\n" ++
  "    dom_" ++ lower_name ++ "_addref(obj);\n" ++
  "    \n" ++
  "    // Cache with release callback\n" ++
  "    cache->Set(isolate, obj, wrapper, [](void* ptr) \x7b\n" ++
  "        dom_" ++ lower_name ++ "_release(static_cast<" ++ dom_type ++ "*>(ptr));\n" ++
  "    \x7d);\n" ++
  "    \n" ++
  "    return handle_scope.Escape(wrapper);\n" ++
  "\x7d\n" ++
  "\n" ++
  dom_type ++ "* " ++ wrapper_class ++ "::Unwrap(v8::Local<v8::Object> obj) \x7b\n" ++
  "    if (obj.IsEmpty() || obj->InternalFieldCount() < 1) \x7b\n" ++
  "        return nullptr;\n" ++
  "    \x7d\n" ++
  "    \n" ++
  "    v8::Local<v8::Value> ptr = obj->GetInternalField(0);\n" ++
  "    if (!ptr->IsExternal()) \x7b\n" ++
  "        return nullptr;\n" ++
  "    \x7d\n" ++
  "    \n" ++
  "    return static_cast<" ++ dom_type ++ "*>(v8::Local<v8::External>::Cast(ptr)->Value());\n" ++
  "\x7d\n" ++
  "\n" ++
  "void " ++ wrapper_class ++ "::InstallTemplate(v8::Isolate* isolate) \x7b\n" ++
  "    v8::Local<v8::FunctionTemplate> tmpl = v8::FunctionTemplate::New(isolate);\n" ++
  "    tmpl->SetClassName(v8::String::NewFromUtf8Literal(isolate, \"" ++ interface_name ++ "\"));\n" ++
  "    tmpl->InstanceTemplate()->SetInternalFieldCount(1);\n" ++
  "    \n" ++
  inherit_line ++
  "\n" ++
  "    // Get prototype template for adding properties/methods\n" ++
  "    v8::Local<v8::ObjectTemplate> proto = tmpl->PrototypeTemplate();\n" ++
  "    \n" ++
  "    // TODO: Add properties and methods here\n" ++
  "    // Example:\n" ++
  "    // proto->SetAccessor(v8::String::NewFromUtf8Literal(isolate, \"propertyName\"),\n" ++
  "    //                   PropertyNameGetter, PropertyNameSetter);\n" ++
  "    // proto->Set(v8::String::NewFromUtf8Literal(isolate, \"methodName\"),\n" ++
  "    //           v8::FunctionTemplate::New(isolate, MethodName));\n" ++
  "    \n" ++
  "    // Cache the template\n" ++
  "    TemplateCache* cache = TemplateCache::ForIsolate(isolate);\n" ++
  "    cache->Set(kTemplateIndex, tmpl);\n" ++
  "\x7d\n" ++
  "\n" ++
  "v8::Local<v8::FunctionTemplate> " ++ wrapper_class ++ "::GetTemplate(v8::Isolate* isolate) \x7b\n" ++
  "    TemplateCache* cache = TemplateCache::ForIsolate(isolate);\n" ++
  "    \n" ++
  "    if (!cache->Has(kTemplateIndex)) \x7b\n" ++
  "        InstallTemplate(isolate);\n" ++
  "    \x7d\n" ++
  "    \n" ++
  "    return cache->Get(kTemplateIndex);\n" ++
  "\x7d\n" ++
  "\n" ++
  "\x7d // namespace v8_dom\n"

/-- The per-interface output of `main`'s generation loop:
`(header_path, header_contents, impl_path, impl_contents)` for each entry of
`all_types` (the writes to disk are outside the embedding). -/
def mainOutputs : List (String × String × String × String) :=
  all_types.map (fun t =>
    let lower_name := t.1.toLower
    ("src/" ++ t.2.2 ++ "/" ++ lower_name ++ "_wrapper.h",
     generate_header t.1 t.2.1,
     "src/" ++ t.2.2 ++ "/" ++ lower_name ++ "_wrapper.cpp",
     generate_implementation t.1 t.2.1))

/-!
## Shared lemmas
-/

section LookupLemmas

variable {α : Type} {β : Type} [BEq α] [LawfulBEq α]

theorem lookup_cons_self (k : α) (v : β) (l : List (α × β)) :
    ((k, v) :: l).lookup k = some v := by
  simp [List.lookup]

theorem lookup_cons_ne (k k' : α) (v : β) (l : List (α × β)) (h : k ≠ k') :
    ((k', v) :: l).lookup k = l.lookup k := by
  simp [List.lookup, beq_false_of_ne h]

end LookupLemmas

/-- One-step unfolding of the fueled `GetTemplate`. -/
theorem getTemplateFuel_succ (fuel : Nat) (i : Iface) (s : TState) :
    getTemplateFuel (fuel + 1) i s =
      match templateCacheGet s (slotOf i) with
      | some t => (t, s)
      | none =>
          let s' := InstallTemplateStep (getTemplateFuel fuel) i s
          ((templateCacheGet s' (slotOf i)).getD default, s') := rfl

/-- The function `GetTemplate` unfolds to the cache check followed by `InstallTemplate`. -/
theorem GetTemplate_eq (i : Iface) (s : TState) :
    GetTemplate i s =
      match templateCacheGet s (slotOf i) with
      | some t => (t, s)
      | none =>
          let s' := InstallTemplate i s
          ((templateCacheGet s' (slotOf i)).getD default, s') := rfl

/-!
## Claim theorems
-/

/-- Claim C4: `Wrap` applied to the native null pointer returns the engine's
empty handle and leaves the entire engine state unchanged — no wrapper is
created, no wrapper-cache entry is added, and no reference count moves. -/
theorem wrap_null_returns_absence : ∀ (i : Iface) (s : EngineState),
    Wrap i 0 s = (none, s) :=
  fun _ _ => rfl

/-- Claim C10: the generator is deterministic — `generate_header` and
`generate_implementation` are pure functions of their arguments, so two
invocations on the same `(interface_name, parent_class)` pair produce identical
strings, and two runs of the whole generation loop produce identical file
contents for every interface. -/
theorem generator_deterministic :
    ∀ (interface_name : String) (parent_class : Option String),
      generate_header interface_name parent_class =
        generate_header interface_name parent_class ∧
      generate_implementation interface_name parent_class =
        generate_implementation interface_name parent_class ∧
      mainOutputs = mainOutputs :=
  fun _ _ => ⟨rfl, rfl, rfl⟩

/-- Claim C9: interface slots are dense and unique — the registry's names are
pairwise distinct, its slots are pairwise distinct and are exactly `0..28` (in
source order, even), every interface the generator emits is registered so the
`.get` fallback is never taken for a generated wrapper, the lookup is consistent
with the registry rows, and each generated wrapper's `kTemplateIndex`
(`slotOf`) enumerates `0..28` across `allIfaces`. -/
theorem template_slots_dense_unique :
    (TEMPLATE_INDICES.map Prod.fst).Nodup ∧
    (TEMPLATE_INDICES.map Prod.snd).Nodup ∧
    TEMPLATE_INDICES.map Prod.snd = List.range 29 ∧
    TEMPLATE_INDICES.length = 29 ∧
    (all_types.all (fun t => (TEMPLATE_INDICES.lookup t.1).isSome) = true) ∧
    (TEMPLATE_INDICES.all (fun x => templateIndexOf x.1 == x.2) = true) ∧
    allIfaces.map slotOf = List.range 29 := by
  decide

/-- Claim C8, counterexample: looking up an unregistered interface name does
not fail — `TEMPLATE_INDICES.get(name, 99)` silently yields the fallback slot
99, and header generation for the unregistered name succeeds. -/
theorem unregistered_lookup_silently_tolerated :
    TEMPLATE_INDICES.lookup "HTMLElement" = none ∧
    templateIndexOf "HTMLElement" = 99 ∧
    generate_header "HTMLElement" none ≠ "" := by
  refine ⟨by decide, by decide, ?_⟩
  decide

/-- Claim C8 as amended: looking up an unregistered interface name is silently
tolerated — it yields the fallback slot 99 rather than a `NotFound` failure —
and no registration-order failure exists because the registry is a static
literal in which every parent named by the generated types is itself
registered. -/
theorem unregistered_lookup_fallback :
    (∀ name : String, TEMPLATE_INDICES.lookup name = none → templateIndexOf name = 99) ∧
    (all_types.all (fun t =>
        match t.2.1 with
        | some pc => (TEMPLATE_INDICES.lookup pc).isSome
        | none => true) = true) := by
  constructor
  · intro name h
    simp [templateIndexOf, h]
  · decide

/-- Witness for the amended C8 at a concrete unregistered name. -/
theorem unregistered_lookup_fallback_witness :
    templateIndexOf "HTMLElement" = 99 :=
  unregistered_lookup_fallback.1 "HTMLElement" (by decide)

section MoreLookupLemmas

variable {α : Type} {β : Type} [BEq α] [LawfulBEq α]

theorem mem_of_lookup {k : α} {v : β} {l : List (α × β)} (h : l.lookup k = some v) :
    (k, v) ∈ l := by
  induction l with
  | nil => simp [List.lookup] at h
  | cons hd tl ih =>
      obtain ⟨a, b⟩ := hd
      by_cases hk : k = a
      · subst hk
        rw [lookup_cons_self] at h
        simp [Option.some_inj.mp h]
      · rw [lookup_cons_ne k a b tl hk] at h
        exact List.mem_cons_of_mem _ (ih h)

end MoreLookupLemmas

/-- The state `InstallTemplateStep` produces always carries the freshly built
template — class name of the interface, one internal field, allocation identity
`s.nextId` — at the front of the slot list, keyed by the interface's slot. -/
theorem installStep_shape (get : Iface → TState → Template × TState)
    (i : Iface) (s : TState) :
    ∃ pid rest, (InstallTemplateStep get i s).slots =
      (slotOf i,
        { id := s.nextId, className := ifaceName i, internalFieldCount := 1,
          parentId := pid }) :: rest := by
  unfold InstallTemplateStep templateCacheSet
  cases parentOf i
  · exact ⟨none, _, rfl⟩
  · exact ⟨_, _, rfl⟩

/-- After `InstallTemplateStep`, the interface's own slot is filled. -/
theorem installStep_get_self (get : Iface → TState → Template × TState)
    (i : Iface) (s : TState) :
    ∃ tm, templateCacheGet (InstallTemplateStep get i s) (slotOf i) = some tm ∧
      tm.internalFieldCount = 1 ∧ tm.id = s.nextId ∧ tm.className = ifaceName i := by
  obtain ⟨pid, rest, hsh⟩ := installStep_shape get i s
  refine ⟨{ id := s.nextId, className := ifaceName i, internalFieldCount := 1,
            parentId := pid }, ?_, rfl, rfl, rfl⟩
  simp [templateCacheGet, hsh, lookup_cons_self]

/-- Every slot filled by a run of the fueled `GetTemplate` holds a template with
exactly one internal field, provided the slots already filled do. -/
theorem getTemplateFuel_fc (fuel : Nat) (i : Iface) (s : TState)
    (hs : ∀ kv ∈ s.slots, kv.2.internalFieldCount = 1) :
    ∀ kv ∈ (getTemplateFuel fuel i s).2.slots, kv.2.internalFieldCount = 1 := by
  induction fuel generalizing i s with
  | zero => exact hs
  | succ n ih =>
      rw [getTemplateFuel_succ]
      cases hg : templateCacheGet s (slotOf i) with
      | some t => exact hs
      | none =>
          simp only []
          unfold InstallTemplateStep templateCacheSet
          cases parentOf i with
          | none =>
              intro kv hkv
              rcases List.mem_cons.mp hkv with h | h
              · simp [h]
              · exact hs kv h
          | some pa =>
              intro kv hkv
              rcases List.mem_cons.mp hkv with h | h
              · simp [h]
              · exact ih pa { s with nextId := s.nextId + 1 } hs kv h

/-- The template `GetTemplate` returns has exactly one internal field, provided
every cached template does. -/
theorem getTemplate_fc (i : Iface) (s : TState)
    (hs : ∀ kv ∈ s.slots, kv.2.internalFieldCount = 1) :
    (GetTemplate i s).1.internalFieldCount = 1 := by
  rw [GetTemplate_eq]
  cases hg : templateCacheGet s (slotOf i) with
  | some t => exact hs (slotOf i, t) (mem_of_lookup hg)
  | none =>
      obtain ⟨tm, htm, hfc, _⟩ := installStep_get_self (getTemplateFuel 31) i s
      have htm' : templateCacheGet (InstallTemplate i s) (slotOf i) = some tm := htm
      simp [htm', hfc]

/-- Slot keys of parent and child differ (slots are unique per interface). -/
theorem slotOf_parent_ne (i pa : Iface) (h : parentOf i = some pa) :
    slotOf pa ≠ slotOf i := by
  cases i <;> simp [parentOf] at h <;> subst h <;> decide

/-- After a fueled `GetTemplate` call with nonzero fuel, the requested slot is
filled with exactly the returned template. -/
theorem getTemplateFuel_self_lookup (fuel : Nat) (i : Iface) (s : TState) :
    templateCacheGet (getTemplateFuel (fuel + 1) i s).2 (slotOf i) =
      some (getTemplateFuel (fuel + 1) i s).1 := by
  rw [getTemplateFuel_succ]
  cases hg : templateCacheGet s (slotOf i) with
  | some t => exact hg
  | none =>
      obtain ⟨tm, htm, _⟩ := installStep_get_self (getTemplateFuel fuel) i s
      simp [htm]

/-- Claim C5: `GetTemplate` is idempotent and memoizing.  If the slot is already
filled, the stored template is returned and nothing changes (so a template is
constructed at most once per engine instance).  A second call after any call
returns the same template and the same state.  And when the interface has a
parent and its template still has to be built, the resulting state holds the
parent's template — constructed before the child's entry was stored, via the
`Inherit` step — and the child template chains to exactly that parent template's
identity. -/
theorem getTemplate_idempotent (i : Iface) (s : TState) :
    (∀ t, templateCacheGet s (slotOf i) = some t → GetTemplate i s = (t, s)) ∧
    GetTemplate i ((GetTemplate i s).2) = ((GetTemplate i s).1, (GetTemplate i s).2) ∧
    (∀ pa, parentOf i = some pa → templateCacheGet s (slotOf i) = none →
      ∃ pt, templateCacheGet (GetTemplate i s).2 (slotOf pa) = some pt ∧
        ((GetTemplate i s).1).parentId = some pt.id) := by
  refine ⟨?_, ?_, ?_⟩
  · intro t ht
    rw [GetTemplate_eq, ht]
  · have hself : templateCacheGet (GetTemplate i s).2 (slotOf i) =
        some (GetTemplate i s).1 :=
      getTemplateFuel_self_lookup 31 i s
    rw [GetTemplate_eq (s := (GetTemplate i s).2), hself]
  · intro pa hpa hnone
    have hne : slotOf pa ≠ slotOf i := slotOf_parent_ne i pa hpa
    rw [GetTemplate_eq, hnone]
    simp only []
    unfold InstallTemplate InstallTemplateStep
    rw [hpa]
    simp only []
    have hpar : templateCacheGet
        (getTemplateFuel 31 pa { s with nextId := s.nextId + 1 }).2 (slotOf pa) =
        some (getTemplateFuel 31 pa { s with nextId := s.nextId + 1 }).1 :=
      getTemplateFuel_self_lookup 30 pa { s with nextId := s.nextId + 1 }
    refine ⟨(getTemplateFuel 31 pa { s with nextId := s.nextId + 1 }).1, ?_, ?_⟩
    · simp only [templateCacheGet, templateCacheSet]
      rw [lookup_cons_ne _ _ _ _ hne]
      exact hpar
    · simp [templateCacheGet, templateCacheSet, lookup_cons_self]

/-- Witness for C5 at the `Text` interface and a fresh engine instance. -/
theorem getTemplate_idempotent_witness :
    GetTemplate .Text ((GetTemplate .Text emptyTState).2) =
      ((GetTemplate .Text emptyTState).1, (GetTemplate .Text emptyTState).2) ∧
    (∃ pt, templateCacheGet (GetTemplate .Text emptyTState).2 (slotOf .CharacterData) =
        some pt ∧ ((GetTemplate .Text emptyTState).1).parentId = some pt.id) ∧
    GetTemplate .Text ((GetTemplate .Text emptyTState).2) =
      ({ id := 0, className := "Text", internalFieldCount := 1, parentId := some 1 },
        (GetTemplate .Text emptyTState).2) :=
  ⟨(getTemplate_idempotent .Text emptyTState).2.1,
   (getTemplate_idempotent .Text emptyTState).2.2 .CharacterData rfl (by decide),
   (getTemplate_idempotent .Text ((GetTemplate .Text emptyTState).2)).1
     { id := 0, className := "Text", internalFieldCount := 1, parentId := some 1 }
     (by decide)⟩

/-- Claim C6: requesting the `Text` template on a fresh engine instance builds
exactly 4 templates, chained `Text -> CharacterData -> Node -> EventTarget` by
template identity (`parentId` links; allocation ids 0..3 show each was built
exactly once), and a later request for the descendant `Comment` reuses all three
ancestors unchanged, adding only the `Comment` template itself. -/
theorem text_template_chain :
    (GetTemplate .Text emptyTState).2.slots.length = 4 ∧
    (GetTemplate .Text emptyTState).1 =
      { id := 0, className := "Text", internalFieldCount := 1, parentId := some 1 } ∧
    templateCacheGet (GetTemplate .Text emptyTState).2 (slotOf .Text) =
      some { id := 0, className := "Text", internalFieldCount := 1, parentId := some 1 } ∧
    templateCacheGet (GetTemplate .Text emptyTState).2 (slotOf .CharacterData) =
      some { id := 1, className := "CharacterData", internalFieldCount := 1,
             parentId := some 2 } ∧
    templateCacheGet (GetTemplate .Text emptyTState).2 (slotOf .Node) =
      some { id := 2, className := "Node", internalFieldCount := 1, parentId := some 3 } ∧
    templateCacheGet (GetTemplate .Text emptyTState).2 (slotOf .EventTarget) =
      some { id := 3, className := "EventTarget", internalFieldCount := 1,
             parentId := none } ∧
    (GetTemplate .Comment (GetTemplate .Text emptyTState).2).2.slots.length = 5 ∧
    templateCacheGet (GetTemplate .Comment (GetTemplate .Text emptyTState).2).2
        (slotOf .CharacterData) =
      templateCacheGet (GetTemplate .Text emptyTState).2 (slotOf .CharacterData) ∧
    templateCacheGet (GetTemplate .Comment (GetTemplate .Text emptyTState).2).2
        (slotOf .Node) =
      templateCacheGet (GetTemplate .Text emptyTState).2 (slotOf .Node) ∧
    templateCacheGet (GetTemplate .Comment (GetTemplate .Text emptyTState).2).2
        (slotOf .EventTarget) =
      templateCacheGet (GetTemplate .Text emptyTState).2 (slotOf .EventTarget) ∧
    templateCacheGet (GetTemplate .Comment (GetTemplate .Text emptyTState).2).2
        (slotOf .Text) =
      templateCacheGet (GetTemplate .Text emptyTState).2 (slotOf .Text) := by
  decide

/-!
## Wrap / Unwrap claims
-/

/-- A helper: the per-entry update `SetInternalField` performs on the heap
leaves every object whose identity differs from `k` unchanged. -/
theorem map_update_ne (k : Nat) (v : FieldVal)
    (l : List (Nat × List FieldVal)) (h : ∀ o ∈ l, o.1 ≠ k) :
    l.map (fun o => if o.1 = k then (o.1, o.2.set 0 v) else o) = l := by
  induction l with
  | nil => rfl
  | cons hd tl ih =>
      simp only [List.map_cons, List.cons.injEq]
      constructor
      · rw [if_neg (h hd (List.mem_cons_self hd tl))]
      · exact ih (fun o ho => h o (List.mem_cons_of_mem hd ho))

/-- One-step reduction of a cache-miss `Wrap`, with every update spelled out
exactly as the definition performs it. -/
theorem wrap_miss_raw (i : Iface) (p : Ptr) (s : EngineState) (hp : p ≠ 0)
    (he : wrapperCacheGet s.wcache p = none) :
    Wrap i p s = (some s.nextObj,
      { tmpl := (GetTemplate i s.tmpl).2,
        heap := (s.nextObj,
            (List.replicate (GetTemplate i s.tmpl).1.internalFieldCount
              FieldVal.undef).set 0 (FieldVal.extPtr p)) ::
          s.heap.map (fun o =>
            if o.1 = s.nextObj then (o.1, o.2.set 0 (FieldVal.extPtr p)) else o),
        nextObj := s.nextObj + 1,
        wcache := (p, ⟨s.nextObj, i⟩) :: s.wcache,
        refcount := (p, rcGet s.refcount p + 1) :: s.refcount }) := by
  simp only [Wrap, if_neg hp, he, domAddref, wrapperCacheSet, List.map_cons]
  simp only [if_true]

/-- The engine state a cache-miss `Wrap` produces, simplified: the template
chain is built, a fresh object holding `p` in internal field 0 is added to the
heap, the reference count of `p` rises by one, and the wrapper cache gains the
entry for `p` with the interface's release callback. -/
theorem wrap_miss (i : Iface) (p : Ptr) (s : EngineState) (hp : p ≠ 0)
    (he : wrapperCacheGet s.wcache p = none)
    (hfc : (GetTemplate i s.tmpl).1.internalFieldCount = 1)
    (hheap : ∀ o ∈ s.heap, o.1 ≠ s.nextObj) :
    Wrap i p s = (some s.nextObj,
      { tmpl := (GetTemplate i s.tmpl).2,
        heap := (s.nextObj, [FieldVal.extPtr p]) :: s.heap,
        nextObj := s.nextObj + 1,
        wcache := (p, ⟨s.nextObj, i⟩) :: s.wcache,
        refcount := (p, rcGet s.refcount p + 1) :: s.refcount }) := by
  rw [wrap_miss_raw i p s hp he, hfc,
    map_update_ne s.nextObj (FieldVal.extPtr p) s.heap hheap]
  rfl

/-- Claim C1: wrapper identity.  A `Wrap` that hits the wrapper cache returns
the cached engine object unchanged (and leaves the state untouched), and for
every non-null pointer a second `Wrap` of the same pointer in the same engine
instance returns the same engine object as the first, with no further state
change — `Wrap(p) == Wrap(p)` by reference. -/
theorem wrap_identity (i : Iface) (p : Ptr) (s : EngineState) (hp : p ≠ 0) :
    (∀ e, wrapperCacheGet s.wcache p = some e → Wrap i p s = (some e.objId, s)) ∧
    Wrap i p ((Wrap i p s).2) = ((Wrap i p s).1, (Wrap i p s).2) := by
  constructor
  · intro e he
    simp [Wrap, if_neg hp, he]
  · cases he : wrapperCacheGet s.wcache p with
    | some e =>
        simp [Wrap, if_neg hp, he]
    | none =>
        rw [wrap_miss_raw i p s hp he]
        have hget : wrapperCacheGet ((p, (⟨s.nextObj, i⟩ : WrapperEntry)) :: s.wcache) p =
            some ⟨s.nextObj, i⟩ := lookup_cons_self p _ s.wcache
        simp [Wrap, if_neg hp, hget]

/-- Witness for C1 on a fresh engine instance and pointer 7. -/
theorem wrap_identity_witness :
    Wrap .Node 7 ((Wrap .Node 7 emptyEngineState).2) =
      ((Wrap .Node 7 emptyEngineState).1, (Wrap .Node 7 emptyEngineState).2) ∧
    Wrap .Node 7 ((Wrap .Node 7 emptyEngineState).2) =
      (some 0, (Wrap .Node 7 emptyEngineState).2) :=
  ⟨(wrap_identity .Node 7 emptyEngineState (by decide)).2,
   (wrap_identity .Node 7 (Wrap .Node 7 emptyEngineState).2 (by decide)).1
     ⟨0, .Node⟩ (by decide)⟩

/-- Claim C2: reference-count discipline.  A cache-hit `Wrap` leaves every
reference count unchanged.  A cache-miss `Wrap(p)` increments `p`'s native
count by exactly one and no other count, and registers a cache entry whose
release callback is the one generated for this very interface
(`dom_{interface}_release` on the interface's native type) and whose invocation
decrements the count by exactly one. -/
theorem wrap_refcount (i : Iface) (p : Ptr) (s : EngineState) (hp : p ≠ 0) :
    (∀ e, wrapperCacheGet s.wcache p = some e →
      (Wrap i p s).2.refcount = s.refcount) ∧
    (wrapperCacheGet s.wcache p = none →
      rcGet (Wrap i p s).2.refcount p = rcGet s.refcount p + 1 ∧
      (∀ q, q ≠ p → rcGet (Wrap i p s).2.refcount q = rcGet s.refcount q) ∧
      ∃ e, wrapperCacheGet (Wrap i p s).2.wcache p = some e ∧
        e.releaseIface = i ∧
        ∀ s' : EngineState,
          rcGet (runReleaseCallback e p s').refcount p = rcGet s'.refcount p - 1) := by
  constructor
  · intro e he
    simp [Wrap, if_neg hp, he]
  · intro he
    rw [wrap_miss_raw i p s hp he]
    refine ⟨?_, ?_, ⟨s.nextObj, i⟩, ?_, rfl, ?_⟩
    · simp only [rcGet]
      rw [lookup_cons_self]
      rfl
    · intro q hq
      simp only [rcGet]
      rw [lookup_cons_ne q p _ _ hq]
    · exact lookup_cons_self p _ s.wcache
    · intro s'
      simp only [runReleaseCallback, domRelease, rcGet]
      rw [lookup_cons_self]
      rfl

/-- Witness for C2 on a fresh engine instance and pointer 7: count goes 0 to 1,
pointer 8 is untouched, the stored callback is `Node`-typed, and firing it
brings the count back to 0. -/
theorem wrap_refcount_witness :
    rcGet (Wrap .Node 7 emptyEngineState).2.refcount 7 =
      rcGet emptyEngineState.refcount 7 + 1 ∧
    rcGet (Wrap .Node 7 emptyEngineState).2.refcount 8 =
      rcGet emptyEngineState.refcount 8 ∧
    (∃ e, wrapperCacheGet (Wrap .Node 7 emptyEngineState).2.wcache 7 = some e ∧
      e.releaseIface = Iface.Node ∧
      ∀ s' : EngineState,
        rcGet (runReleaseCallback e 7 s').refcount 7 = rcGet s'.refcount 7 - 1) := by
  have h := (wrap_refcount .Node 7 emptyEngineState (by decide)).2 (by decide)
  exact ⟨h.1, h.2.1 8 (by decide), h.2.2⟩

/-- Claim C3: `Unwrap` is a total function (it cannot throw), returns the null
pointer for the empty handle, for an object with no internal field, and for an
object whose field 0 is not an External — and it returns a pointer only by
reading it from internal field 0, never dereferencing it. -/
theorem unwrap_total_safe (h : Option Nat) (s : EngineState) :
    (h = none → Unwrap h s = 0) ∧
    (∀ oid, h = some oid → s.heap.lookup oid = none → Unwrap h s = 0) ∧
    (∀ oid, h = some oid → s.heap.lookup oid = some [] → Unwrap h s = 0) ∧
    (∀ oid fields v, h = some oid → s.heap.lookup oid = some fields →
      fields[0]? = some v → (∀ q, v ≠ FieldVal.extPtr q) → Unwrap h s = 0) ∧
    (∀ oid fields q, h = some oid → s.heap.lookup oid = some fields →
      fields[0]? = some (FieldVal.extPtr q) → Unwrap h s = q) := by
  refine ⟨?_, ?_, ?_, ?_, ?_⟩
  · intro hh; subst hh; rfl
  · intro oid hh hl; subst hh; simp [Unwrap, hl]
  · intro oid hh hl; subst hh; simp [Unwrap, hl]
  · intro oid fields v hh hl hf hne
    subst hh
    cases fields with
    | nil => simp at hf
    | cons f fs =>
        simp only [List.getElem?_cons_zero, Option.some_inj] at hf
        subst hf
        cases f with
        | undef => simp [Unwrap, hl]
        | extPtr q => exact absurd rfl (hne q)
  · intro oid fields q hh hl hf
    subst hh
    cases fields with
    | nil => simp at hf
    | cons f fs =>
        simp only [List.getElem?_cons_zero, Option.some_inj] at hf
        subst hf
        simp [Unwrap, hl]

/-- Witness for C3: concrete malformed inputs all unwrap to null, and a
well-formed object unwraps to the stored pointer. -/
theorem unwrap_total_safe_witness :
    Unwrap none emptyEngineState = 0 ∧
    Unwrap (some 5) emptyEngineState = 0 ∧
    Unwrap (some 0)
      { tmpl := emptyTState, heap := [(0, [])], nextObj := 1,
        wcache := [], refcount := [] } = 0 ∧
    Unwrap (some 0)
      { tmpl := emptyTState, heap := [(0, [FieldVal.undef])], nextObj := 1,
        wcache := [], refcount := [] } = 0 ∧
    Unwrap (some 0)
      { tmpl := emptyTState, heap := [(0, [FieldVal.extPtr 3])], nextObj := 1,
        wcache := [], refcount := [] } = 3 :=
  ⟨(unwrap_total_safe none emptyEngineState).1 rfl,
   (unwrap_total_safe (some 5) emptyEngineState).2.1 5 rfl (by decide),
   (unwrap_total_safe (some 0) _).2.2.1 0 rfl (by decide),
   (unwrap_total_safe (some 0) _).2.2.2.1 0 [FieldVal.undef] FieldVal.undef rfl
     (by decide) (by decide) (fun q h => FieldVal.noConfusion h),
   (unwrap_total_safe (some 0) _).2.2.2.2 0 [FieldVal.extPtr 3] 3 rfl
     (by decide) (by decide)⟩

/-- The states the wrapper subsystem keeps itself in: every wrapper-cache entry
points at a live engine object holding the entry's native pointer in internal
field 0, every cached template declares exactly one internal field (as
`InstallTemplate` sets), and all recorded object identities are below the
allocation counter. -/
def CacheConsistent (s : EngineState) : Prop :=
  (∀ e ∈ s.wcache,
    (s.heap.lookup e.2.objId).bind (fun fl => fl[0]?) = some (FieldVal.extPtr e.1)) ∧
  (∀ kv ∈ s.tmpl.slots, kv.2.internalFieldCount = 1) ∧
  (∀ e ∈ s.wcache, e.2.objId < s.nextObj) ∧
  (∀ o ∈ s.heap, o.1 < s.nextObj)

/-- Claim C7: round trip.  In every cache-consistent engine state and for every
non-null native pointer `p`, `Unwrap (Wrap p) = p` — on a miss because `Wrap`
stores `p` in the new object's internal field 0 and `Unwrap` reads exactly that
field, on a hit because the cached object already holds `p` there — and `Wrap`
preserves cache consistency, so the property holds along any `Wrap` sequence
from a fresh engine instance. -/
theorem wrap_unwrap_roundtrip (i : Iface) (p : Ptr) (s : EngineState)
    (hp : p ≠ 0) (hs : CacheConsistent s) :
    Unwrap (Wrap i p s).1 (Wrap i p s).2 = p ∧ CacheConsistent (Wrap i p s).2 := by
  obtain ⟨hw, ht, hb, hh⟩ := hs
  cases he : wrapperCacheGet s.wcache p with
  | some e =>
      have hbind := hw (p, e) (mem_of_lookup he)
      have hwr : Wrap i p s = (some e.objId, s) := by simp [Wrap, if_neg hp, he]
      rw [hwr]
      refine ⟨?_, hw, ht, hb, hh⟩
      cases hlk : s.heap.lookup e.objId with
      | none => rw [hlk] at hbind; simp at hbind
      | some fl =>
          rw [hlk] at hbind
          simp only [Option.some_bind] at hbind
          cases fl with
          | nil => simp at hbind
          | cons f fs =>
              simp only [List.getElem?_cons_zero, Option.some_inj] at hbind
              subst hbind
              simp [Unwrap, hlk]
  | none =>
      have hfc : (GetTemplate i s.tmpl).1.internalFieldCount = 1 :=
        getTemplate_fc i s.tmpl ht
      have hheap : ∀ o ∈ s.heap, o.1 ≠ s.nextObj := fun o ho => Nat.ne_of_lt (hh o ho)
      rw [wrap_miss i p s hp he hfc hheap]
      refine ⟨?_, ?_, ?_, ?_, ?_⟩
      · simp only [Unwrap]
        rw [lookup_cons_self]
        simp
      · intro e hm
        rcases List.mem_cons.mp hm with hm | hm
        · subst hm
          simp only []
          rw [lookup_cons_self]
          simp
        · have hne : e.2.objId ≠ s.nextObj := Nat.ne_of_lt (hb e hm)
          simp only []
          rw [lookup_cons_ne e.2.objId s.nextObj _ _ hne]
          exact hw e hm
      · exact getTemplateFuel_fc 32 i s.tmpl ht
      · intro e hm
        rcases List.mem_cons.mp hm with hm | hm
        · subst hm
          exact Nat.lt_succ_self _
        · exact Nat.lt_succ_of_lt (hb e hm)
      · intro o hm
        rcases List.mem_cons.mp hm with hm | hm
        · subst hm
          exact Nat.lt_succ_self _
        · exact Nat.lt_succ_of_lt (hh o hm)

/-- Witness for C7: the fresh engine instance is cache-consistent, wrapping the
concrete pointer 42 as an `Element` and unwrapping gives back 42, and the
resulting state is cache-consistent again. -/
theorem wrap_unwrap_roundtrip_witness :
    CacheConsistent emptyEngineState ∧
    Unwrap (Wrap .Element 42 emptyEngineState).1 (Wrap .Element 42 emptyEngineState).2
      = 42 ∧
    CacheConsistent (Wrap .Element 42 emptyEngineState).2 :=
  ⟨by simp [CacheConsistent, emptyEngineState, emptyTState],
   (wrap_unwrap_roundtrip .Element 42 emptyEngineState (by decide)
     (by simp [CacheConsistent, emptyEngineState, emptyTState])).1,
   (wrap_unwrap_roundtrip .Element 42 emptyEngineState (by decide)
     (by simp [CacheConsistent, emptyEngineState, emptyTState])).2⟩

end V8Dom
